import Mathlib

/-!
Verification development for the crawler2 URL monitor.

The repository contains two side-by-side monitor variants (a fetch-based
`Monitor` in the first half of src/src/monitor.ts and an axios-based
`UrlMonitor` in the second half) and two database variants
(src/src/database.ts and the sqlite3-callback variant in
src/unnamed/part_004).  Both monitor variants are wired to entry points,
so claims that quantify over "every probe" or "every scheduler" are
settled against both.

Modelling conventions:
* ISO-8601 timestamps are modelled as integers (their chronological
  order); SQLite datetime comparisons become integer comparisons.
* JavaScript `Map<string, number>` is an association list with unique
  keys (`mapGet` / `mapSet` / `mapDelete`); `Set<string>` is a list with
  membership, where delete removes every copy (a Set never holds
  duplicates, so this coincides with Set.delete on reachable states).
* JavaScript falsy coercion of optional strings (`value || null`) is
  `normOpt`, which collapses the empty string to `none`.
* SQL result ordering (ORDER BY) is modelled where a claim depends on it
  (getResults) and abstracted to membership where no claim mentions
  order (group hierarchies, duplicate elimination via `List.dedup`).
-/

/-- Association-list lookup, mirroring JavaScript `Map.get`. -/
def mapGet : List (String × Nat) → String → Option Nat
  | [], _ => none
  | p :: rest, k => if p.1 = k then some p.2 else mapGet rest k

/-- Association-list update, mirroring JavaScript `Map.set`: replace the
existing binding in place, or append a new one. -/
def mapSet : List (String × Nat) → String → Nat → List (String × Nat)
  | [], k, v => [(k, v)]
  | p :: rest, k, v => if p.1 = k then (k, v) :: rest else p :: mapSet rest k v

/-- Association-list removal, mirroring JavaScript `Map.delete`. -/
def mapDelete : List (String × Nat) → String → List (String × Nat)
  | [], _ => []
  | p :: rest, k => if p.1 = k then mapDelete rest k else p :: mapDelete rest k

theorem mapGet_mapSet_self (m : List (String × Nat)) (k : String) (v : Nat) :
    mapGet (mapSet m k v) k = some v := by
  induction m with
  | nil => simp [mapSet, mapGet]
  | cons p rest ih =>
    by_cases h : p.1 = k
    · simp [mapSet, mapGet, h]
    · simp [mapSet, mapGet, h, ih]

theorem mapGet_mapSet_ne (m : List (String × Nat)) (k k' : String) (v : Nat)
    (h : k' ≠ k) : mapGet (mapSet m k v) k' = mapGet m k' := by
  have hk : ¬ (k = k') := fun hc => h hc.symm
  induction m with
  | nil => simp [mapSet, mapGet, hk]
  | cons p rest ih =>
    by_cases hp : p.1 = k
    · have h3 : ¬ (p.1 = k') := by rw [hp]; exact hk
      simp only [mapSet, if_pos hp, mapGet, if_neg hk, if_neg h3]
    · simp only [mapSet, if_neg hp, mapGet, ih]

theorem mapGet_mapDelete_self (m : List (String × Nat)) (k : String) :
    mapGet (mapDelete m k) k = none := by
  induction m with
  | nil => simp [mapDelete, mapGet]
  | cons p rest ih =>
    by_cases h : p.1 = k
    · simp [mapDelete, h, ih]
    · simp [mapDelete, mapGet, h, ih]

theorem mapGet_mapDelete_ne (m : List (String × Nat)) (k k' : String)
    (h : k' ≠ k) : mapGet (mapDelete m k) k' = mapGet m k' := by
  induction m with
  | nil => simp [mapDelete]
  | cons p rest ih =>
    by_cases hp : p.1 = k
    · have h3 : ¬ (p.1 = k') := by rw [hp]; exact fun hc => h hc.symm
      simp only [mapDelete, if_pos hp, mapGet, if_neg h3, ih]
    · simp only [mapDelete, if_neg hp, mapGet, ih]

/-- URL configuration of the fetch variant (src/src/types.ts). -/
structure URLConfig where
  url : String
  name : String
  countryCode : Option String
  group_name : Option String
  interval : Option Nat
deriving DecidableEq, Repr

/-- URL configuration of the axios variant (types.ts of that variant). -/
structure UrlConfig where
  url : String
  name : String
  interval : Nat
  countryCode : Option String
  group : Option String
deriving DecidableEq, Repr

/-- CheckResult record of the fetch/database variant (src/src/types.ts). -/
structure RequestResult where
  url : String
  name : String
  countryCode : Option String
  group_name : Option String
  timestamp : Int
  status : Nat
  responseTime : Nat
  success : Bool
  error : Option String
deriving DecidableEq, Repr

/-- CheckResult record of the axios `UrlMonitor` variant. -/
structure AxiosRequestResult where
  url : String
  name : String
  group : Option String
  timestamp : Int
  status : Nat
  responseTime : Nat
  success : Bool
  error : Option String
deriving DecidableEq, Repr

/-- Outcome of one HTTP probe as seen at the try/catch boundary of the
source: either a response with a status code was received, or the
request failed at the transport level with an error message. -/
inductive ProbeOutcome where
  | response (status : Nat)
  | transportFailure (message : String)
deriving DecidableEq, Repr

/-- The `ok` flag of a Fetch API response: status in [200, 300). -/
def responseOk (status : Nat) : Bool := decide (200 ≤ status ∧ status < 300)

namespace Monitor

/-- Monitor.checkURL (src/src/monitor.ts, fetch variant), as the pure
function from the probe outcome to the recorded result: success taken
from response.ok; on a received non-ok response the error text is
"HTTP status"; on a transport failure status is 0, success false, and
the error text is the thrown message, or "Request failed" when that
message is falsy (empty). -/
def checkURL (config : URLConfig) (ts : Int) (responseTime : Nat)
    (outcome : ProbeOutcome) : RequestResult :=
  match outcome with
  | .response status =>
    let success := responseOk status
    { url := config.url, name := config.name, countryCode := config.countryCode,
      group_name := config.group_name, timestamp := ts, status := status,
      responseTime := responseTime, success := success,
      error := if success then none else some ("HTTP " ++ toString status) }
  | .transportFailure msg =>
    { url := config.url, name := config.name, countryCode := config.countryCode,
      group_name := config.group_name, timestamp := ts, status := 0,
      responseTime := responseTime, success := false,
      error := some (if msg = "" then "Request failed" else msg) }

end Monitor

namespace UrlMonitor

/-- UrlMonitor.checkUrl (src/src/monitor.ts, axios variant): success is
status in [200, 400); the response branch sets no error field at all;
the transport-failure branch records status 0, success false and the
thrown message. -/
def checkUrl (cfg : UrlConfig) (ts : Int) (responseTime : Nat)
    (outcome : ProbeOutcome) : AxiosRequestResult :=
  match outcome with
  | .response status =>
    { url := cfg.url, name := cfg.name, group := cfg.group, timestamp := ts,
      status := status, responseTime := responseTime,
      success := decide (200 ≤ status ∧ status < 400), error := none }
  | .transportFailure msg =>
    { url := cfg.url, name := cfg.name, group := cfg.group, timestamp := ts,
      status := 0, responseTime := responseTime, success := false,
      error := some msg }

/-- Alert messages sent through the SlackNotifier. -/
inductive Alert where
  | failureAlert (url : String) (consecutiveFailures : Nat)
  | recoveryAlert (url : String)
deriving DecidableEq, Repr

/-- The in-memory failure tracking state of UrlMonitor: the
consecutive-failure Map and the notified Set. -/
structure TrackState where
  failureTracker : List (String × Nat)
  notifiedUrls : List String
deriving DecidableEq, Repr

/-- The consecutive-failure count the code reads for a url:
failureTracker.get(urlKey) with 0 for a missing key. -/
def countOf (st : TrackState) (u : String) : Nat :=
  (mapGet st.failureTracker u).getD 0

/-- UrlMonitor.handleFailureTracking (src/src/monitor.ts lines 298-337)
as a state transition returning the new state and the alerts emitted.
On success: if the url is in notifiedUrls, send one recovery alert and
delete it from the set; then delete the failure count.  On failure:
increment the count; if the new count is at least 3 and the url is not
in notifiedUrls, send one failure alert and add it to the set. -/
def handleFailureTracking (st : TrackState) (url : String) (success : Bool) :
    TrackState × List Alert :=
  if success then
    if url ∈ st.notifiedUrls then
      ({ failureTracker := mapDelete st.failureTracker url,
         notifiedUrls := st.notifiedUrls.filter (fun v => v ≠ url) },
       [Alert.recoveryAlert url])
    else
      ({ failureTracker := mapDelete st.failureTracker url,
         notifiedUrls := st.notifiedUrls }, [])
  else
    let currentFailures := (mapGet st.failureTracker url).getD 0
    let newFailureCount := currentFailures + 1
    if 3 ≤ newFailureCount ∧ url ∉ st.notifiedUrls then
      ({ failureTracker := mapSet st.failureTracker url newFailureCount,
         notifiedUrls := st.notifiedUrls ++ [url] },
       [Alert.failureAlert url newFailureCount])
    else
      ({ failureTracker := mapSet st.failureTracker url newFailureCount,
         notifiedUrls := st.notifiedUrls }, [])

/-- Folding any sequence of (url, success) probe outcomes from the
fresh state in which both tracking containers are empty. -/
def runTracking (events : List (String × Bool)) : TrackState :=
  events.foldl (fun st e => (handleFailureTracking st e.1 e.2).1) ⟨[], []⟩

end UrlMonitor

namespace UrlMonitor

/-- The state component of one failure-tracking step. -/
def trackStep (st : TrackState) (u : String) (b : Bool) : TrackState :=
  (handleFailureTracking st u b).1

/-- The alerts emitted by one failure-tracking step. -/
def trackAlerts (st : TrackState) (u : String) (b : Bool) : List Alert :=
  (handleFailureTracking st u b).2

theorem handleFT_true (st : TrackState) (u : String) :
    handleFailureTracking st u true =
      if u ∈ st.notifiedUrls then
        (⟨mapDelete st.failureTracker u, st.notifiedUrls.filter (fun v => v ≠ u)⟩,
         [Alert.recoveryAlert u])
      else
        (⟨mapDelete st.failureTracker u, st.notifiedUrls⟩, []) := rfl

theorem handleFT_false (st : TrackState) (u : String) :
    handleFailureTracking st u false =
      if 3 ≤ countOf st u + 1 ∧ u ∉ st.notifiedUrls then
        (⟨mapSet st.failureTracker u (countOf st u + 1), st.notifiedUrls ++ [u]⟩,
         [Alert.failureAlert u (countOf st u + 1)])
      else
        (⟨mapSet st.failureTracker u (countOf st u + 1), st.notifiedUrls⟩, []) := rfl

/-- Invariant of the tracking state: every notified url has a recorded
consecutive-failure count of at least the threshold 3. -/
def trackInv (st : TrackState) : Prop :=
  ∀ u ∈ st.notifiedUrls, 3 ≤ countOf st u

theorem trackInv_step (st : TrackState) (url : String) (b : Bool)
    (hinv : trackInv st) : trackInv (handleFailureTracking st url b).1 := by
  cases b with
  | true =>
    rw [handleFT_true]
    by_cases h : url ∈ st.notifiedUrls
    · rw [if_pos h]
      intro v hv
      have hv2 := List.mem_filter.mp hv
      have hvne : v ≠ url := by simpa using hv2.2
      have h4 := hinv v hv2.1
      simp only [countOf] at h4 ⊢
      rw [mapGet_mapDelete_ne _ _ _ hvne]
      exact h4
    · rw [if_neg h]
      intro v hv
      have hvne : v ≠ url := fun hc => h (hc ▸ hv)
      have h4 := hinv v hv
      simp only [countOf] at h4 ⊢
      rw [mapGet_mapDelete_ne _ _ _ hvne]
      exact h4
  | false =>
    rw [handleFT_false]
    by_cases hc : 3 ≤ countOf st url + 1 ∧ url ∉ st.notifiedUrls
    · rw [if_pos hc]
      intro v hv
      rcases List.mem_append.mp hv with hv1 | hv1
      · have hvne : v ≠ url := fun hd => hc.2 (hd ▸ hv1)
        have h4 := hinv v hv1
        simp only [countOf] at h4 ⊢
        rw [mapGet_mapSet_ne _ _ _ _ hvne]
        exact h4
      · have hvu : v = url := by simpa using hv1
        subst hvu
        have h1 := hc.1
        simp only [countOf] at h1 ⊢
        rw [mapGet_mapSet_self]
        simpa using h1
    · rw [if_neg hc]
      intro v hv
      by_cases hvu : v = url
      · subst hvu
        have h3 := hinv v hv
        simp only [countOf] at h3 ⊢
        rw [mapGet_mapSet_self]
        simp only [Option.getD_some]
        omega
      · have h4 := hinv v hv
        simp only [countOf] at h4 ⊢
        rw [mapGet_mapSet_ne _ _ _ _ hvu]
        exact h4

theorem trackInv_foldl (events : List (String × Bool)) :
    ∀ st : TrackState, trackInv st →
      trackInv (events.foldl (fun s e => (handleFailureTracking s e.1 e.2).1) st) := by
  induction events with
  | nil => intro st h; simpa using h
  | cons e rest ih =>
    intro st h
    simp only [List.foldl_cons]
    exact ih _ (trackInv_step st e.1 e.2 h)

theorem trackInv_runTracking (events : List (String × Bool)) :
    trackInv (runTracking events) := by
  apply trackInv_foldl
  intro u hu
  simp at hu

end UrlMonitor

/-- C1: for every target url, the failure-streak state machine of
UrlMonitor.handleFailureTracking satisfies: a success event resets the
consecutive-failure count to 0 and emits exactly one recovery alert iff
the notified flag was set, clearing it; a failure event increments the
count and emits exactly one failure alert iff the new count is at least
3 and the url was not yet notified, marking it notified; and from a
fresh streak (no recorded count, not notified) three consecutive
failures emit exactly one failure alert, a fourth emits none, and a
subsequent success emits exactly one recovery alert. -/
theorem c1_failure_streak_machine (st : UrlMonitor.TrackState) (u : String) :
    (UrlMonitor.countOf (UrlMonitor.trackStep st u true) u = 0
      ∧ UrlMonitor.trackAlerts st u true =
          (if u ∈ st.notifiedUrls then [UrlMonitor.Alert.recoveryAlert u] else [])
      ∧ u ∉ (UrlMonitor.trackStep st u true).notifiedUrls)
  ∧ (UrlMonitor.countOf (UrlMonitor.trackStep st u false) u
        = UrlMonitor.countOf st u + 1
      ∧ UrlMonitor.trackAlerts st u false =
          (if 3 ≤ UrlMonitor.countOf st u + 1 ∧ u ∉ st.notifiedUrls
            then [UrlMonitor.Alert.failureAlert u (UrlMonitor.countOf st u + 1)]
            else [])
      ∧ (UrlMonitor.trackAlerts st u false ≠ [] →
          u ∈ (UrlMonitor.trackStep st u false).notifiedUrls))
  ∧ ((mapGet st.failureTracker u = none ∧ u ∉ st.notifiedUrls) →
      UrlMonitor.trackAlerts st u false = []
      ∧ UrlMonitor.trackAlerts (UrlMonitor.trackStep st u false) u false = []
      ∧ UrlMonitor.trackAlerts
          (UrlMonitor.trackStep (UrlMonitor.trackStep st u false) u false) u false
          = [UrlMonitor.Alert.failureAlert u 3]
      ∧ UrlMonitor.trackAlerts
          (UrlMonitor.trackStep
            (UrlMonitor.trackStep (UrlMonitor.trackStep st u false) u false)
            u false) u false
          = []
      ∧ UrlMonitor.trackAlerts
          (UrlMonitor.trackStep
            (UrlMonitor.trackStep
              (UrlMonitor.trackStep (UrlMonitor.trackStep st u false) u false)
              u false) u false) u true
          = [UrlMonitor.Alert.recoveryAlert u]) := by
  refine ⟨⟨?_, ?_, ?_⟩, ⟨?_, ?_, ?_⟩, ?_⟩
  · by_cases h : u ∈ st.notifiedUrls <;>
      simp [UrlMonitor.trackStep, UrlMonitor.handleFT_true, h, UrlMonitor.countOf,
        mapGet_mapDelete_self]
  · by_cases h : u ∈ st.notifiedUrls <;>
      simp [UrlMonitor.trackAlerts, UrlMonitor.handleFT_true, h]
  · by_cases h : u ∈ st.notifiedUrls <;>
      simp [UrlMonitor.trackStep, UrlMonitor.handleFT_true, h, List.mem_filter]
  · simp only [UrlMonitor.trackStep, UrlMonitor.handleFT_false]
    by_cases hc : 3 ≤ UrlMonitor.countOf st u + 1 ∧ u ∉ st.notifiedUrls
    · rw [if_pos hc]; simp [UrlMonitor.countOf, mapGet_mapSet_self]
    · rw [if_neg hc]; simp [UrlMonitor.countOf, mapGet_mapSet_self]
  · simp only [UrlMonitor.trackAlerts, UrlMonitor.handleFT_false]
    by_cases hc : 3 ≤ UrlMonitor.countOf st u + 1 ∧ u ∉ st.notifiedUrls
    · rw [if_pos hc, if_pos hc]
    · rw [if_neg hc, if_neg hc]
  · simp only [UrlMonitor.trackAlerts, UrlMonitor.trackStep, UrlMonitor.handleFT_false]
    by_cases hc : 3 ≤ UrlMonitor.countOf st u + 1 ∧ u ∉ st.notifiedUrls
    · rw [if_pos hc]
      intro _
      simp
    · rw [if_neg hc]
      intro h
      exact absurd rfl h
  · rintro ⟨h1, h2⟩
    have hc0 : UrlMonitor.countOf st u = 0 := by simp [UrlMonitor.countOf, h1]
    have e1 : UrlMonitor.trackStep st u false =
        ⟨mapSet st.failureTracker u 1, st.notifiedUrls⟩ := by
      simp [UrlMonitor.trackStep, UrlMonitor.handleFT_false, hc0]
    have a1 : UrlMonitor.trackAlerts st u false = [] := by
      simp [UrlMonitor.trackAlerts, UrlMonitor.handleFT_false, hc0]
    have e2 : UrlMonitor.trackStep (UrlMonitor.trackStep st u false) u false =
        ⟨mapSet (mapSet st.failureTracker u 1) u 2, st.notifiedUrls⟩ := by
      rw [e1]
      simp [UrlMonitor.trackStep, UrlMonitor.handleFT_false, UrlMonitor.countOf,
        mapGet_mapSet_self]
    have a2 : UrlMonitor.trackAlerts (UrlMonitor.trackStep st u false) u false = [] := by
      rw [e1]
      simp [UrlMonitor.trackAlerts, UrlMonitor.handleFT_false, UrlMonitor.countOf,
        mapGet_mapSet_self]
    have e3 : UrlMonitor.trackStep
        (UrlMonitor.trackStep (UrlMonitor.trackStep st u false) u false) u false =
        ⟨mapSet (mapSet (mapSet st.failureTracker u 1) u 2) u 3,
         st.notifiedUrls ++ [u]⟩ := by
      rw [e2]
      simp [UrlMonitor.trackStep, UrlMonitor.handleFT_false, UrlMonitor.countOf,
        mapGet_mapSet_self, h2]
    have a3 : UrlMonitor.trackAlerts
        (UrlMonitor.trackStep (UrlMonitor.trackStep st u false) u false) u false =
        [UrlMonitor.Alert.failureAlert u 3] := by
      rw [e2]
      simp [UrlMonitor.trackAlerts, UrlMonitor.handleFT_false, UrlMonitor.countOf,
        mapGet_mapSet_self, h2]
    have e4 : UrlMonitor.trackStep (UrlMonitor.trackStep
        (UrlMonitor.trackStep (UrlMonitor.trackStep st u false) u false) u false)
        u false =
        ⟨mapSet (mapSet (mapSet (mapSet st.failureTracker u 1) u 2) u 3) u 4,
         st.notifiedUrls ++ [u]⟩ := by
      rw [e3]
      simp [UrlMonitor.trackStep, UrlMonitor.handleFT_false, UrlMonitor.countOf,
        mapGet_mapSet_self]
    have a4 : UrlMonitor.trackAlerts (UrlMonitor.trackStep
        (UrlMonitor.trackStep (UrlMonitor.trackStep st u false) u false) u false)
        u false = [] := by
      rw [e3]
      simp [UrlMonitor.trackAlerts, UrlMonitor.handleFT_false, UrlMonitor.countOf,
        mapGet_mapSet_self]
    have a5 : UrlMonitor.trackAlerts (UrlMonitor.trackStep (UrlMonitor.trackStep
        (UrlMonitor.trackStep (UrlMonitor.trackStep st u false) u false) u false)
        u false) u true = [UrlMonitor.Alert.recoveryAlert u] := by
      rw [e4]
      simp [UrlMonitor.trackAlerts, UrlMonitor.handleFT_true]
    exact ⟨a1, a2, a3, a4, a5⟩

/-- Witness for C1: from the empty tracking state, the hypotheses of the
fresh-streak scenario hold for a concrete url, and the third consecutive
failure emits exactly the one failure alert. -/
theorem c1_failure_streak_machine_witness :
    (mapGet (UrlMonitor.TrackState.mk [] []).failureTracker "u" = none
      ∧ "u" ∉ (UrlMonitor.TrackState.mk [] []).notifiedUrls)
    ∧ UrlMonitor.trackAlerts
        (UrlMonitor.trackStep (UrlMonitor.trackStep ⟨[], []⟩ "u" false) "u" false)
        "u" false
        = [UrlMonitor.Alert.failureAlert "u" 3] := by
  have h : mapGet (UrlMonitor.TrackState.mk [] []).failureTracker "u" = none
      ∧ "u" ∉ (UrlMonitor.TrackState.mk [] []).notifiedUrls := by
    constructor
    · rfl
    · simp
  exact ⟨h, ((c1_failure_streak_machine ⟨[], []⟩ "u").2.2 h).2.2.1⟩

/-- C10: starting from empty tracking maps, after any sequence of
success/failure probe outcomes every url in the notified set has a
recorded consecutive-failure count of at least 3; each failure step
strictly increments a url's count by one; and a success step removes
both the url's recorded count and its notified membership. -/
theorem c10_tracking_invariant :
    (∀ events : List (String × Bool),
        ∀ u ∈ (UrlMonitor.runTracking events).notifiedUrls,
          3 ≤ UrlMonitor.countOf (UrlMonitor.runTracking events) u)
  ∧ (∀ st : UrlMonitor.TrackState, ∀ u : String,
        UrlMonitor.countOf (UrlMonitor.trackStep st u false) u
          = UrlMonitor.countOf st u + 1)
  ∧ (∀ st : UrlMonitor.TrackState, ∀ u : String,
        mapGet (UrlMonitor.trackStep st u true).failureTracker u = none
          ∧ u ∉ (UrlMonitor.trackStep st u true).notifiedUrls) := by
  refine ⟨fun events => UrlMonitor.trackInv_runTracking events,
    fun st u => ?_, fun st u => ?_⟩
  · simp only [UrlMonitor.trackStep, UrlMonitor.handleFT_false]
    by_cases hc : 3 ≤ UrlMonitor.countOf st u + 1 ∧ u ∉ st.notifiedUrls
    · rw [if_pos hc]; simp [UrlMonitor.countOf, mapGet_mapSet_self]
    · rw [if_neg hc]; simp [UrlMonitor.countOf, mapGet_mapSet_self]
  · by_cases h : u ∈ st.notifiedUrls <;>
      simp [UrlMonitor.trackStep, UrlMonitor.handleFT_true, h,
        mapGet_mapDelete_self, List.mem_filter]

/-- Witness for C10: after three consecutive failures for a concrete
url, that url is notified and the invariant yields a count of at
least 3. -/
theorem c10_tracking_invariant_witness :
    3 ≤ UrlMonitor.countOf
        (UrlMonitor.runTracking [("u", false), ("u", false), ("u", false)]) "u" :=
  c10_tracking_invariant.1 [("u", false), ("u", false), ("u", false)] "u" (by decide)

/-- A concrete URL configuration for counterexample evaluation
(fetch variant). -/
def cfgFetch : URLConfig :=
  { url := "https://example.com", name := "example", countryCode := none,
    group_name := none, interval := none }

/-- A concrete URL configuration for counterexample evaluation
(axios variant). -/
def cfgAxios : UrlConfig :=
  { url := "https://example.com", name := "example", interval := 60000,
    countryCode := none, group := none }

/-- C2 counterexample: the fetch-variant Monitor.checkURL records a 301
response with success=false (it uses response.ok, that is status in
[200,300)), so the claim that every probe satisfies success iff status
in [200,400), and in particular that a 301 yields success=true, is
false for that probe. -/
theorem c2_counterexample :
    (Monitor.checkURL cfgFetch 0 0 (ProbeOutcome.response 301)).status = 301
    ∧ 200 ≤ (Monitor.checkURL cfgFetch 0 0 (ProbeOutcome.response 301)).status
    ∧ (Monitor.checkURL cfgFetch 0 0 (ProbeOutcome.response 301)).status < 400
    ∧ (Monitor.checkURL cfgFetch 0 0 (ProbeOutcome.response 301)).success = false := by
  decide

/-- C2 (amended): the axios-variant UrlMonitor.checkUrl computes the
success flag as status in [200,400) — in particular 404 yields false
and 301 yields true — while the fetch-variant Monitor.checkURL instead
uses response.ok, success iff status in [200,300), so a 301 yields
success=false there. -/
theorem c2_success_rule (config : URLConfig) (cfg : UrlConfig) (ts : Int)
    (rt : Nat) (status : Nat) :
    (UrlMonitor.checkUrl cfg ts rt (ProbeOutcome.response status)).success
        = decide (200 ≤ status ∧ status < 400)
    ∧ (UrlMonitor.checkUrl cfg ts rt (ProbeOutcome.response 404)).success = false
    ∧ (UrlMonitor.checkUrl cfg ts rt (ProbeOutcome.response 301)).success = true
    ∧ (Monitor.checkURL config ts rt (ProbeOutcome.response status)).success
        = decide (200 ≤ status ∧ status < 300) := by
  refine ⟨rfl, by simp [UrlMonitor.checkUrl], by simp [UrlMonitor.checkUrl], rfl⟩

/-- C6: for every probe that fails at the transport level, both probe
variants record status 0 and success=false; the axios variant records
the thrown message as the error text, and the fetch variant records it
whenever the message is non-empty (falling back to "Request failed"
for an empty message).  Both embeddings are total functions, so the
failure never escapes the probe boundary. -/
theorem c6_transport_failure (config : URLConfig) (cfg : UrlConfig) (ts : Int)
    (rt : Nat) (msg : String) :
    (Monitor.checkURL config ts rt (ProbeOutcome.transportFailure msg)).status = 0
    ∧ (Monitor.checkURL config ts rt (ProbeOutcome.transportFailure msg)).success = false
    ∧ (UrlMonitor.checkUrl cfg ts rt (ProbeOutcome.transportFailure msg)).status = 0
    ∧ (UrlMonitor.checkUrl cfg ts rt (ProbeOutcome.transportFailure msg)).success = false
    ∧ (UrlMonitor.checkUrl cfg ts rt (ProbeOutcome.transportFailure msg)).error = some msg
    ∧ (msg ≠ "" →
        (Monitor.checkURL config ts rt (ProbeOutcome.transportFailure msg)).error
          = some msg) := by
  refine ⟨rfl, rfl, rfl, rfl, rfl, fun h => ?_⟩
  simp [Monitor.checkURL, h]

/-- Witness for C6: the transport-failure fields at a concrete non-empty
error message. -/
theorem c6_transport_failure_witness :
    (Monitor.checkURL cfgFetch 0 5 (ProbeOutcome.transportFailure "ETIMEDOUT")).error
      = some "ETIMEDOUT"
    ∧ (Monitor.checkURL cfgFetch 0 5 (ProbeOutcome.transportFailure "ETIMEDOUT")).status
      = 0 :=
  ⟨((c6_transport_failure cfgFetch cfgAxios 0 5 "ETIMEDOUT").2.2.2.2.2 (by decide)),
   (c6_transport_failure cfgFetch cfgAxios 0 5 "ETIMEDOUT").1⟩

/-- C7 counterexample: the axios-variant UrlMonitor.checkUrl records a
404 response with success=false but with no error field at all, so the
claim that the error field is present iff success is false fails for
that probe. -/
theorem c7_counterexample :
    (UrlMonitor.checkUrl cfgAxios 0 0 (ProbeOutcome.response 404)).success = false
    ∧ (UrlMonitor.checkUrl cfgAxios 0 0 (ProbeOutcome.response 404)).error = none := by
  decide

/-- C7 (amended): for the fetch-variant Monitor.checkURL the error field
is present iff the success flag is false; for the axios-variant
UrlMonitor.checkUrl the error field is present only if success is false
(it is set only on transport failure), but a failed HTTP response
carries no error field. -/
theorem c7_error_presence (config : URLConfig) (cfg : UrlConfig) (ts : Int)
    (rt : Nat) (o : ProbeOutcome) :
    ((Monitor.checkURL config ts rt o).error.isSome = true
        ↔ (Monitor.checkURL config ts rt o).success = false)
    ∧ ((UrlMonitor.checkUrl cfg ts rt o).error.isSome = true →
        (UrlMonitor.checkUrl cfg ts rt o).success = false) := by
  cases o with
  | response status =>
    constructor
    · by_cases h : responseOk status = true <;>
        simp [Monitor.checkURL, h]
    · simp [UrlMonitor.checkUrl]
  | transportFailure msg =>
    exact ⟨by simp [Monitor.checkURL], fun _ => rfl⟩

/-- Witness for C7: the implication for the axios variant discharged at
a concrete transport failure, and the iff instantiated at a concrete
404 response of the fetch variant. -/
theorem c7_error_presence_witness :
    (UrlMonitor.checkUrl cfgAxios 0 0 (ProbeOutcome.transportFailure "boom")).success
      = false
    ∧ (Monitor.checkURL cfgFetch 0 0 (ProbeOutcome.response 404)).error.isSome = true :=
  ⟨(c7_error_presence cfgFetch cfgAxios 0 0 (ProbeOutcome.transportFailure "boom")).2
      (by decide),
   (c7_error_presence cfgFetch cfgAxios 0 0 (ProbeOutcome.response 404)).1.mpr
      (by decide)⟩

namespace Monitor

/-- Timer bookkeeping of the fetch-variant Monitor: the isRunning guard,
the intervals Map from url to the id of its armed interval timer, the
multiset of armed timer ids, and a fresh-id counter for setInterval. -/
structure MonitorState where
  isRunning : Bool
  intervals : List (String × Nat)
  armed : List Nat
  nextTimerId : Nat
deriving DecidableEq, Repr

/-- The state of a freshly constructed Monitor. -/
def initState : MonitorState :=
  { isRunning := false, intervals := [], armed := [], nextTimerId := 0 }

/-- Monitor.scheduleURL: performs the initial check, arms a setInterval
timer and registers it in the intervals Map under the url. -/
def scheduleURL (st : MonitorState) (config : URLConfig) : MonitorState :=
  { st with intervals := mapSet st.intervals config.url st.nextTimerId,
            armed := st.armed ++ [st.nextTimerId],
            nextTimerId := st.nextTimerId + 1 }

/-- Monitor.start: throws "Monitor is already running" (leaving the
state untouched) when the guard is set, otherwise sets the guard and
schedules every configured url.  The thrown error is modelled as the
second component. -/
def start (st : MonitorState) (urls : List URLConfig) :
    MonitorState × Option String :=
  if st.isRunning then (st, some "Monitor is already running")
  else (urls.foldl scheduleURL { st with isRunning := true }, none)

/-- Number of registered interval timers for a target url. -/
def timersFor (st : MonitorState) (u : String) : Nat :=
  (st.intervals.filter (fun p => p.1 == u)).length

/-- Number of entries with a given key in an association list. -/
def keyCount (m : List (String × Nat)) (k : String) : Nat :=
  (m.filter (fun p => p.1 == k)).length

theorem timersFor_eq_keyCount (st : MonitorState) (u : String) :
    timersFor st u = keyCount st.intervals u := rfl

theorem keyCount_cons (p : String × Nat) (rest : List (String × Nat))
    (k : String) :
    keyCount (p :: rest) k = (if p.1 == k then 1 else 0) + keyCount rest k := by
  by_cases hp : (p.1 == k) = true
  · simp [keyCount, List.filter_cons, hp, Nat.add_comm]
  · simp [keyCount, List.filter_cons, hp]

theorem keyCount_mapSet_self (m : List (String × Nat)) (k : String) (v : Nat)
    (h : keyCount m k ≤ 1) : keyCount (mapSet m k v) k = 1 := by
  induction m with
  | nil => simp [mapSet, keyCount]
  | cons p rest ih =>
    by_cases hp : p.1 = k
    · have hb : (p.1 == k) = true := by simp [hp]
      have h1 : keyCount (p :: rest) k = 1 + keyCount rest k := by
        rw [keyCount_cons, hb]
        simp
      have h0 : keyCount rest k = 0 := by omega
      simp only [mapSet, if_pos hp]
      rw [keyCount_cons]
      simp [h0]
    · have hb : (p.1 == k) = false := beq_eq_false_iff_ne.mpr hp
      have h2 : keyCount rest k ≤ 1 := by
        rw [keyCount_cons, hb] at h
        simpa using h
      simp only [mapSet, if_neg hp]
      rw [keyCount_cons, hb]
      simpa using ih h2

theorem keyCount_mapSet_ne (m : List (String × Nat)) (k k' : String) (v : Nat)
    (h : k' ≠ k) : keyCount (mapSet m k v) k' = keyCount m k' := by
  have hk : (k == k') = false := beq_eq_false_iff_ne.mpr (fun hc => h hc.symm)
  induction m with
  | nil => simp [mapSet, keyCount_cons, keyCount, hk]
  | cons p rest ih =>
    by_cases hp : p.1 = k
    · have hne : (p.1 == k') = false := by rw [hp]; exact hk
      simp only [mapSet, if_pos hp]
      rw [keyCount_cons, keyCount_cons, hk, hne]
    · simp only [mapSet, if_neg hp]
      rw [keyCount_cons, keyCount_cons, ih]

theorem keyCount_mapSet_le_one (m : List (String × Nat)) (k : String) (v : Nat)
    (h : ∀ j, keyCount m j ≤ 1) : ∀ j, keyCount (mapSet m k v) j ≤ 1 := by
  intro j
  by_cases hj : j = k
  · subst hj
    exact le_of_eq (keyCount_mapSet_self m j v (h j))
  · rw [keyCount_mapSet_ne m k j v hj]
    exact h j

theorem foldl_scheduleURL_isRunning (urls : List URLConfig) (st : MonitorState) :
    (urls.foldl scheduleURL st).isRunning = st.isRunning := by
  induction urls generalizing st with
  | nil => rfl
  | cons c rest ih =>
    simp only [List.foldl_cons, ih, scheduleURL]

theorem foldl_scheduleURL_keyCount (urls : List URLConfig) (st : MonitorState)
    (hle : ∀ j, keyCount st.intervals j ≤ 1) :
    (∀ j, keyCount (urls.foldl scheduleURL st).intervals j ≤ 1)
    ∧ (∀ u, (u ∈ urls.map URLConfig.url ∨ keyCount st.intervals u = 1) →
        keyCount (urls.foldl scheduleURL st).intervals u = 1) := by
  induction urls generalizing st with
  | nil =>
    refine ⟨hle, fun u h => ?_⟩
    rcases h with h | h
    · simp at h
    · exact h
  | cons c rest ih =>
    simp only [List.foldl_cons]
    have hset : (scheduleURL st c).intervals = mapSet st.intervals c.url st.nextTimerId := rfl
    have hle2 : ∀ j, keyCount (scheduleURL st c).intervals j ≤ 1 := by
      rw [hset]
      exact keyCount_mapSet_le_one st.intervals c.url st.nextTimerId hle
    refine ⟨(ih (scheduleURL st c) hle2).1, fun u h => ?_⟩
    apply (ih (scheduleURL st c) hle2).2
    rcases h with h | h
    · rcases List.mem_map.mp h with ⟨cfg, hcfg, hd⟩
      rcases List.mem_cons.mp hcfg with hc | hc
      · right
        rw [hset, ← hd, hc]
        exact keyCount_mapSet_self st.intervals c.url st.nextTimerId (hle c.url)
      · left
        exact List.mem_map.mpr ⟨cfg, hc, hd⟩
    · right
      by_cases hu : u = c.url
      · rw [hu, hset]
        exact keyCount_mapSet_self st.intervals c.url st.nextTimerId (hle c.url)
      · rw [hset, keyCount_mapSet_ne st.intervals c.url u st.nextTimerId hu]
        exact h

end Monitor

namespace UrlMonitor

/-- Timer bookkeeping of the axios-variant UrlMonitor.startMonitoring:
the intervals Map (which only ever holds the key "main"), the multiset
of armed timer ids, and a fresh-id counter.  The source has no
isRunning guard at all. -/
structure SchedulerState where
  intervals : List (String × Nat)
  armed : List Nat
  nextTimerId : Nat
deriving DecidableEq, Repr

/-- UrlMonitor.startMonitoring: unconditionally arms one shared interval
timer and registers it under "main" (overwriting any previous
registration while the previously armed timer stays armed); it never
signals an error. -/
def startMonitoring (st : SchedulerState) : SchedulerState × Option String :=
  ({ intervals := mapSet st.intervals "main" st.nextTimerId,
     armed := st.armed ++ [st.nextTimerId],
     nextTimerId := st.nextTimerId + 1 }, none)

end UrlMonitor

/-- C3 counterexample: calling UrlMonitor.startMonitoring a second time
on an already-started monitor signals no error and leaves two armed
timers while the registry holds a single entry, so the claim that every
scheduler signals an already-running error on a second start is false
on this concrete scheduler state. -/
theorem c3_counterexample :
    (UrlMonitor.startMonitoring
        (UrlMonitor.startMonitoring ⟨[], [], 0⟩).1).2 = none
    ∧ (UrlMonitor.startMonitoring
        (UrlMonitor.startMonitoring ⟨[], [], 0⟩).1).1.armed.length = 2
    ∧ (UrlMonitor.startMonitoring
        (UrlMonitor.startMonitoring ⟨[], [], 0⟩).1).1.intervals.length = 1 := by
  decide

/-- C3 (amended): the fetch-variant Monitor.start signals the
already-running error and leaves the state untouched whenever the
monitor is running; after starting fresh and calling start again, the
second call yields the error and every configured target still has
exactly one registered timer.  The axios-variant
UrlMonitor.startMonitoring has no such guard: every call succeeds and
arms one more timer. -/
theorem c3_start_guard :
    (∀ (st : Monitor.MonitorState) (urls : List URLConfig),
        st.isRunning = true →
          Monitor.start st urls = (st, some "Monitor is already running"))
  ∧ (∀ (urls : List URLConfig) (u : String), u ∈ urls.map URLConfig.url →
        (Monitor.start (Monitor.start Monitor.initState urls).1 urls).2
            = some "Monitor is already running"
        ∧ Monitor.timersFor
            (Monitor.start (Monitor.start Monitor.initState urls).1 urls).1 u = 1)
  ∧ (∀ st : UrlMonitor.SchedulerState,
        (UrlMonitor.startMonitoring st).2 = none
        ∧ (UrlMonitor.startMonitoring st).1.armed.length
            = st.armed.length + 1) := by
  refine ⟨fun st urls h => by simp [Monitor.start, h], fun urls u hu => ?_,
    fun st => ⟨rfl, by simp [UrlMonitor.startMonitoring]⟩⟩
  have e0 : Monitor.start Monitor.initState urls
      = (urls.foldl Monitor.scheduleURL
          { Monitor.initState with isRunning := true }, none) := rfl
  have hrun : (urls.foldl Monitor.scheduleURL
      { Monitor.initState with isRunning := true }).isRunning = true := by
    rw [Monitor.foldl_scheduleURL_isRunning]
  constructor
  · rw [e0]
    simp [Monitor.start, hrun]
  · rw [e0]
    simp only [Monitor.start, hrun, if_pos]
    rw [Monitor.timersFor_eq_keyCount]
    exact (Monitor.foldl_scheduleURL_keyCount urls _
      (fun j => by simp [Monitor.keyCount, Monitor.initState])).2 u (Or.inl hu)

/-- Witness for C3: the guard applied at a concrete running state, and
the second-start behaviour at a concrete one-target configuration. -/
theorem c3_start_guard_witness :
    Monitor.start ⟨true, [], [], 0⟩ [] = (⟨true, [], [], 0⟩, some "Monitor is already running")
    ∧ (Monitor.start (Monitor.start Monitor.initState [cfgFetch]).1 [cfgFetch]).2
        = some "Monitor is already running"
    ∧ Monitor.timersFor
        (Monitor.start (Monitor.start Monitor.initState [cfgFetch]).1 [cfgFetch]).1
        "https://example.com" = 1 := by
  have h := c3_start_guard.2.1 [cfgFetch] "https://example.com" (by decide)
  exact ⟨c3_start_guard.1 ⟨true, [], [], 0⟩ [] rfl, h.1, h.2⟩

namespace Database

/-- JavaScript falsy coercion `value || null` on an optional string:
an absent value stays absent and the empty string becomes absent. -/
def normOpt : Option String → Option String
  | some "" => none
  | x => x

/-- One row of the requests table (schema of src/src/database.ts):
id, url, name, countryCode, group_name, timestamp, status,
responseTime, success, error. -/
structure DBRow where
  id : Nat
  url : String
  name : String
  countryCode : Option String
  group_name : Option String
  timestamp : Int
  status : Nat
  responseTime : Nat
  success : Bool
  error : Option String
deriving DecidableEq, Repr

/-- The requests table plus the AUTOINCREMENT counter. -/
structure DBState where
  rows : List DBRow
  nextId : Nat
deriving DecidableEq, Repr

/-- A freshly initialized database. -/
def emptyDB : DBState := ⟨[], 1⟩

/-- The row written by Database.insertResult for a result record: the
optional countryCode, group_name and error fields pass through the
JavaScript `|| null` coercion. -/
def mkRow (idv : Nat) (r : RequestResult) : DBRow :=
  { id := idv, url := r.url, name := r.name,
    countryCode := normOpt r.countryCode, group_name := normOpt r.group_name,
    timestamp := r.timestamp, status := r.status,
    responseTime := r.responseTime, success := r.success,
    error := normOpt r.error }

/-- Database.insertResult: appends one row, consuming one generated id. -/
def insertResult (db : DBState) (r : RequestResult) : DBState :=
  { rows := db.rows ++ [mkRow db.nextId r], nextId := db.nextId + 1 }

/-- Newest-first comparison used to model ORDER BY timestamp DESC. -/
def newerFirst (a b : DBRow) : Prop := b.timestamp ≤ a.timestamp

instance : DecidableRel newerFirst := fun a b =>
  inferInstanceAs (Decidable (b.timestamp ≤ a.timestamp))

instance : IsTotal DBRow newerFirst := ⟨fun a b => le_total b.timestamp a.timestamp⟩

instance : IsTrans DBRow newerFirst := ⟨fun _ _ _ hab hbc => le_trans hbc hab⟩

/-- Database.getResults: rows with datetime(timestamp) at or after the
cutoff (the SQLite expression datetime(now, timeRange) is modelled as
the integer cutoff), optionally filtered by group_name when the
groupName argument is truthy (present and non-empty), ordered by
timestamp descending. -/
def getResults (db : DBState) (cutoff : Int) (groupName : Option String) :
    List DBRow :=
  List.insertionSort newerFirst
    (db.rows.filter (fun row =>
      decide (cutoff ≤ row.timestamp) &&
        (match groupName with
          | some g => (g == "") || (row.group_name == some g)
          | none => true)))

/-- Field-wise equality of a stored row with a result record, ignoring
the generated id. -/
def rowMatches (row : DBRow) (r : RequestResult) : Bool :=
  (row.url == r.url) && (row.name == r.name)
    && (row.countryCode == r.countryCode) && (row.group_name == r.group_name)
    && (row.timestamp == r.timestamp) && (row.status == r.status)
    && (row.responseTime == r.responseTime) && (row.success == r.success)
    && (row.error == r.error)

/-- The GROUP BY key of Database.getStats:
(url, name, group_name, countryCode). -/
def statsKey (row : DBRow) : String × String × Option String × Option String :=
  (row.url, row.name, row.group_name, row.countryCode)

/-- JavaScript Math.round: nearest integer, ties toward positive
infinity. -/
def jsRound (q : ℚ) : ℤ := ⌊q + 1 / 2⌋

/-- One aggregate row of Database.getStats. -/
structure URLStats where
  url : String
  name : String
  group_name : Option String
  countryCode : Option String
  totalRequests : Nat
  successfulRequests : Nat
  failedRequests : Nat
  successRate : ℚ
  averageResponseTime : ℤ
  lastChecked : Option Int
  lastStatus : Option Nat
deriving DecidableEq, Repr

/-- The aggregate record Database.getStats produces for one key: COUNT,
the two CASE sums, the rounded AVG (0 when NULL), the success rate
successful/total*100 with 0 for an empty group, MAX(timestamp), and the
status of the newest row with that url over the whole table. -/
def statsFor (db : DBState) (cutoff : Int)
    (k : String × String × Option String × Option String) : URLStats :=
  let inRange := db.rows.filter (fun row => decide (cutoff ≤ row.timestamp))
  let grp := inRange.filter (fun row => statsKey row == k)
  let total := grp.length
  let succCount := (grp.filter (fun row => row.success)).length
  let failCount := (grp.filter (fun row => !row.success)).length
  let avg : ℚ := if total = 0 then 0
    else ((grp.map (fun row => (row.responseTime : ℚ))).sum) / (total : ℚ)
  { url := k.1, name := k.2.1, group_name := k.2.2.1, countryCode := k.2.2.2,
    totalRequests := total, successfulRequests := succCount,
    failedRequests := failCount,
    successRate := if 0 < total then ((succCount : ℚ) / (total : ℚ)) * 100 else 0,
    averageResponseTime := jsRound avg,
    lastChecked := (grp.map (fun row => row.timestamp)).max?,
    lastStatus := (List.insertionSort newerFirst
        (db.rows.filter (fun row => row.url == k.1))).head?.map
      (fun row => row.status) }

/-- Database.getStats: one aggregate record per distinct GROUP BY key of
the rows inside the time range (result order abstracted; the source
orders by name, which no claim depends on). -/
def getStats (db : DBState) (cutoff : Int) : List URLStats :=
  (((db.rows.filter (fun row => decide (cutoff ≤ row.timestamp))).map
      statsKey).dedup).map (statsFor db cutoff)

/-- The group of rows an aggregate record describes, reconstructed from
its key fields. -/
def statsGroup (db : DBState) (cutoff : Int) (s : URLStats) : List DBRow :=
  (db.rows.filter (fun row => decide (cutoff ≤ row.timestamp))).filter
    (fun row => statsKey row == (s.url, s.name, s.group_name, s.countryCode))

/-- Database.cleanup: DELETE of every row whose timestamp is strictly
older than now minus olderThanDays days (days are 86400 seconds in the
integer time model); returns the surviving table and the number of
deleted rows. -/
def cleanup (db : DBState) (nowTime : Int) (olderThanDays : Nat) :
    DBState × Nat :=
  ({ rows := db.rows.filter (fun row =>
       !decide (row.timestamp < nowTime - (olderThanDays : Int) * 86400)),
     nextId := db.nextId },
   (db.rows.filter (fun row =>
       decide (row.timestamp < nowTime - (olderThanDays : Int) * 86400))).length)

end Database

namespace Database

/-- The composite key string used by Database.getGroupHierarchy:
countryCode with the JavaScript falsy fallback to "no-country". -/
def countryKey (c : Option String) : String :=
  match normOpt c with
  | some s => s
  | none => "no-country"

/-- First-occurrence URL deduplication inside one hierarchy entry,
mirroring the entry.urls.find guard of Database.getGroupHierarchy. -/
def dedupByUrl (l : List (String × String)) : List (String × String) :=
  l.foldl (fun acc q => if acc.any (fun x => x.1 == q.1) then acc else acc ++ [q]) []

/-- One entry of Database.getGroupHierarchy (src/src/database.ts):
group name, optional country, and the (url, name) pairs. -/
structure GroupHierarchy where
  group_name : String
  countryCode : Option String
  urls : List (String × String)
deriving DecidableEq, Repr

/-- Rows admitted by the WHERE clause of Database.getGroupHierarchy:
group_name neither NULL nor the empty string. -/
def hierRows (db : DBState) : List DBRow :=
  db.rows.filter (fun row =>
    !(row.group_name == (none : Option String)) && !(row.group_name == some ""))

/-- The SELECT DISTINCT (group_name, countryCode, url, name) tuples of
Database.getGroupHierarchy (the SQL ORDER BY is abstracted; the claims
are order-independent). -/
def hierTuples (db : DBState) : List (String × Option String × String × String) :=
  ((hierRows db).map (fun row =>
    (row.group_name.getD "", row.countryCode, row.url, row.name))).dedup

/-- The distinct hierarchy-map keys group|country of
Database.getGroupHierarchy. -/
def hierKeys (db : DBState) : List String :=
  ((hierTuples db).map (fun t => t.1 ++ "|" ++ countryKey t.2.1)).dedup

/-- Database.getGroupHierarchy (src/src/database.ts): rows lacking a
group are excluded by the WHERE clause; with no tuples the function
returns the empty list early; otherwise one entry per distinct
group|country key, carrying the normalized optional country of its
first tuple and the URL-deduplicated (url, name) pairs. -/
def getGroupHierarchy (db : DBState) : List GroupHierarchy :=
  if (hierTuples db).isEmpty then []
  else
    (hierKeys db).map (fun k =>
      { group_name :=
          (((hierTuples db).filter
              (fun t => (t.1 ++ "|" ++ countryKey t.2.1) == k)).head?.map
            (fun t => t.1)).getD "",
        countryCode :=
          (((hierTuples db).filter
              (fun t => (t.1 ++ "|" ++ countryKey t.2.1) == k)).head?.map
            (fun t => normOpt t.2.1)).getD none,
        urls := dedupByUrl (((hierTuples db).filter
            (fun t => (t.1 ++ "|" ++ countryKey t.2.1) == k)).map
          (fun t => (t.2.2.1, t.2.2.2))) })

/-- One entry of the part_004 getGroupHierarchy variant: COALESCE makes
both group and country plain strings. -/
structure LegacyGroupHierarchy where
  group_name : String
  countryCode : String
  urls : List (String × String)
deriving DecidableEq, Repr

/-- The SELECT with COALESCE(group_name, Ungrouped) and
COALESCE(countryCode, Unknown), GROUP BY all four columns, of the
part_004 variant: the distinct coalesced tuples
(group, country, name, url). -/
def legacyTuples (db : DBState) : List (String × String × String × String) :=
  (db.rows.map (fun row =>
    (row.group_name.getD "Ungrouped", row.countryCode.getD "Unknown",
     row.name, row.url))).dedup

/-- The distinct (group, country) pairs of the part_004 variant. -/
def legacyKeys (db : DBState) : List (String × String) :=
  ((legacyTuples db).map (fun t => (t.1, t.2.1))).dedup

/-- Database.getGroupHierarchy of src/unnamed/part_004: every row
contributes under its coalesced group and country; one entry per
distinct (group, country) pair with the (url, name) pairs of its
tuples (the flattening order of the nested object is abstracted). -/
def legacyGetGroupHierarchy (db : DBState) : List LegacyGroupHierarchy :=
  (legacyKeys db).map (fun k =>
    { group_name := k.1, countryCode := k.2,
      urls := ((legacyTuples db).filter (fun t => (t.1, t.2.1) == k)).map
        (fun t => (t.2.2.2, t.2.2.1)) })

end Database

theorem length_filter_split {α : Type} (l : List α) (p : α → Bool) :
    (l.filter p).length + (l.filter (fun x => !p x)).length = l.length := by
  induction l with
  | nil => rfl
  | cons a rest ih =>
    by_cases h : p a = true
    · simp [List.filter_cons, h]
      omega
    · have h2 : p a = false := eq_false_of_ne_true h
      simp [List.filter_cons, h2]
      omega

theorem mem_foldl_dedupByUrl (l : List (String × String)) :
    ∀ (acc : List (String × String)) (p : String × String),
      p ∈ l.foldl
        (fun acc q => if acc.any (fun x => x.1 == q.1) then acc else acc ++ [q])
        acc →
      p ∈ acc ∨ p ∈ l := by
  induction l with
  | nil => intro acc p h; exact Or.inl h
  | cons q rest ih =>
    intro acc p h
    simp only [List.foldl_cons] at h
    rcases ih _ p h with h2 | h2
    · by_cases hq : acc.any (fun x => x.1 == q.1) = true
      · rw [if_pos hq] at h2
        exact Or.inl h2
      · rw [if_neg hq] at h2
        rcases List.mem_append.mp h2 with h3 | h3
        · exact Or.inl h3
        · right
          have : p = q := by simpa using h3
          simp [this]
    · right
      exact List.mem_cons_of_mem q h2

theorem mem_dedupByUrl (l : List (String × String)) (p : String × String)
    (h : p ∈ Database.dedupByUrl l) : p ∈ l := by
  rcases mem_foldl_dedupByUrl l [] p h with h2 | h2
  · simp at h2
  · exact h2

/-- A stored row with fixed identification fields, used for concrete
evaluations. -/
def sampleRow (idv : Nat) (ts : Int) (ok : Bool) (rt : Nat) : Database.DBRow :=
  { id := idv, url := "https://example.com", name := "example",
    countryCode := none, group_name := none, timestamp := ts,
    status := if ok then 200 else 500, responseTime := rt, success := ok,
    error := none }

/-- C5: cleanup deletes exactly the rows whose timestamp is strictly
older than now minus the day cutoff and returns their exact number;
rows at or after the cutoff (in particular exactly at the boundary) are
retained unchanged, and deleted plus kept accounts for every row. -/
theorem c5_cleanup_boundary (db : Database.DBState) (nowTime : Int) (d : Nat) :
    (Database.cleanup db nowTime d).1.rows
        = db.rows.filter (fun row =>
            decide (nowTime - (d : Int) * 86400 ≤ row.timestamp))
    ∧ (Database.cleanup db nowTime d).2
        = (db.rows.filter (fun row =>
            decide (row.timestamp < nowTime - (d : Int) * 86400))).length
    ∧ (Database.cleanup db nowTime d).2
        + (Database.cleanup db nowTime d).1.rows.length = db.rows.length
    ∧ (∀ row ∈ db.rows, nowTime - (d : Int) * 86400 ≤ row.timestamp →
        row ∈ (Database.cleanup db nowTime d).1.rows)
    ∧ (∀ row ∈ db.rows, row.timestamp < nowTime - (d : Int) * 86400 →
        row ∉ (Database.cleanup db nowTime d).1.rows) := by
  refine ⟨?_, rfl, length_filter_split db.rows _, ?_, ?_⟩
  · apply List.filter_congr
    intro x _
    rw [← decide_not, decide_eq_decide]
    exact not_lt
  · intro row hr hle
    apply List.mem_filter.mpr
    refine ⟨hr, ?_⟩
    simp only [Bool.not_eq_true', decide_eq_false_iff_not, not_lt]
    exact hle
  · intro row _ hlt hmem
    have h2 := (List.mem_filter.mp hmem).2
    simp only [Bool.not_eq_true', decide_eq_false_iff_not, not_lt] at h2
    exact absurd h2 (not_le.mpr hlt)

/-- Witness for C5: with now = 100 and a 0-day cutoff, among rows at
timestamps 99, 100 and 101 exactly the strictly older row is deleted
and the boundary row survives. -/
theorem c5_cleanup_boundary_witness :
    (Database.cleanup ⟨[sampleRow 1 99 true 1, sampleRow 2 100 true 1,
        sampleRow 3 101 true 1], 4⟩ 100 0).2 = 1
    ∧ sampleRow 2 100 true 1 ∈
        (Database.cleanup ⟨[sampleRow 1 99 true 1, sampleRow 2 100 true 1,
          sampleRow 3 101 true 1], 4⟩ 100 0).1.rows
    ∧ sampleRow 1 99 true 1 ∉
        (Database.cleanup ⟨[sampleRow 1 99 true 1, sampleRow 2 100 true 1,
          sampleRow 3 101 true 1], 4⟩ 100 0).1.rows := by
  have h := c5_cleanup_boundary ⟨[sampleRow 1 99 true 1, sampleRow 2 100 true 1,
    sampleRow 3 101 true 1], 4⟩ 100 0
  refine ⟨?_, ?_, ?_⟩
  · rw [h.2.1]
    decide
  · exact h.2.2.2.1 (sampleRow 2 100 true 1) (by decide) (by decide)
  · exact h.2.2.2.2 (sampleRow 1 99 true 1) (by decide) (by decide)

/-- A result record whose error field is the empty string, exercising
the JavaScript falsy coercion in Database.insertResult. -/
def emptyErrorResult : RequestResult :=
  { url := "u", name := "n", countryCode := none, group_name := none,
    timestamp := 0, status := 500, responseTime := 10, success := false,
    error := some "" }

/-- C9 counterexample: inserting a record whose error field is the empty
string and querying it back yields exactly one row, and that row does
not agree with the inserted record on all fields (insertion stored the
empty-string error as NULL), so the claimed field-for-field round trip
fails for this record. -/
theorem c9_counterexample :
    (Database.getResults (Database.insertResult Database.emptyDB
        emptyErrorResult) 0 none).length = 1
    ∧ (Database.getResults (Database.insertResult Database.emptyDB
        emptyErrorResult) 0 none).all
        (fun row => !(Database.rowMatches row emptyErrorResult)) = true := by
  decide

/-- C9 (amended): a record whose optional countryCode, group and error
fields are unchanged by the empty-string-to-NULL coercion (in
particular any record without empty-string optionals) round-trips
through insertResult and getResults field-for-field modulo the
generated id whenever the time range covers its timestamp; and every
getResults answer is ordered newest-first. -/
theorem c9_round_trip :
    (∀ (db : Database.DBState) (r : RequestResult) (cutoff : Int),
        Database.normOpt r.countryCode = r.countryCode →
        Database.normOpt r.group_name = r.group_name →
        Database.normOpt r.error = r.error →
        cutoff ≤ r.timestamp →
        ∃ row ∈ Database.getResults (Database.insertResult db r) cutoff none,
          Database.rowMatches row r = true)
    ∧ (∀ (db : Database.DBState) (cutoff : Int) (groupName : Option String),
        (Database.getResults db cutoff groupName).Pairwise
          Database.newerFirst) := by
  constructor
  · intro db r cutoff h1 h2 h3 h4
    refine ⟨Database.mkRow db.nextId r, ?_, ?_⟩
    · apply (List.perm_insertionSort Database.newerFirst _).mem_iff.mpr
      apply List.mem_filter.mpr
      constructor
      · simp [Database.insertResult]
      · simp [Database.mkRow, h4]
    · simp [Database.rowMatches, Database.mkRow, h1, h2, h3]
  · intro db cutoff groupName
    exact List.sorted_insertionSort Database.newerFirst _

/-- Witness for C9: a concrete record with absent optional fields
round-trips through insert and query. -/
theorem c9_round_trip_witness :
    ∃ row ∈ Database.getResults
        (Database.insertResult Database.emptyDB
          { url := "u", name := "n", countryCode := none, group_name := none,
            timestamp := 5, status := 200, responseTime := 10, success := true,
            error := none }) 0 none,
      Database.rowMatches row
        { url := "u", name := "n", countryCode := none, group_name := none,
          timestamp := 5, status := 200, responseTime := 10, success := true,
          error := none } = true :=
  c9_round_trip.1 Database.emptyDB
    { url := "u", name := "n", countryCode := none, group_name := none,
      timestamp := 5, status := 200, responseTime := 10, success := true,
      error := none } 0 rfl rfl rfl (by decide)

/-- The fixed synthetic dataset of the spec: 10 results for one target,
7 successes and 3 failures, response times summing to 553. -/
def statsDemo : Database.DBState :=
  ⟨[sampleRow 1 1 true 12, sampleRow 2 2 true 25, sampleRow 3 3 false 33,
    sampleRow 4 4 true 47, sampleRow 5 5 true 55, sampleRow 6 6 false 61,
    sampleRow 7 7 true 74, sampleRow 8 8 true 82, sampleRow 9 9 false 96,
    sampleRow 10 10 true 68], 11⟩

/-- C4: every aggregate record of getStats describes its group of
in-range rows: total count, success count, failure count (with total
equal to their sum), success rate successful/total*100 (0 when total is
0), and average response time equal to the arithmetic mean rounded to
the nearest integer. -/
theorem c4_stats_aggregation (db : Database.DBState) (cutoff : Int)
    (s : Database.URLStats) (hs : s ∈ Database.getStats db cutoff) :
    s.totalRequests = (Database.statsGroup db cutoff s).length
    ∧ s.successfulRequests
        = ((Database.statsGroup db cutoff s).filter (fun row => row.success)).length
    ∧ s.failedRequests
        = ((Database.statsGroup db cutoff s).filter (fun row => !row.success)).length
    ∧ s.totalRequests = s.successfulRequests + s.failedRequests
    ∧ s.successRate = (if 0 < s.totalRequests
        then ((s.successfulRequests : ℚ) / (s.totalRequests : ℚ)) * 100 else 0)
    ∧ s.averageResponseTime = Database.jsRound (if s.totalRequests = 0 then 0
        else ((Database.statsGroup db cutoff s).map
            (fun row => (row.responseTime : ℚ))).sum / (s.totalRequests : ℚ)) := by
  rcases List.mem_map.mp hs with ⟨k, hk, he⟩
  obtain ⟨a, b, c, d⟩ := k
  subst he
  refine ⟨rfl, rfl, rfl, ?_, rfl, rfl⟩
  exact (length_filter_split
    ((db.rows.filter (fun row => decide (cutoff ≤ row.timestamp))).filter
      (fun row => Database.statsKey row == (a, b, c, d)))
    (fun row => row.success)).symm

/-- Witness for C4: over the synthetic 10-row dataset the single
aggregate record has 10 total requests, 7 successes, success rate 70
and average response time 55 (the rounded mean of 55.3). -/
theorem c4_stats_aggregation_witness :
    Database.statsFor statsDemo 0 ("https://example.com", "example", none, none)
        ∈ Database.getStats statsDemo 0
    ∧ (Database.statsFor statsDemo 0
        ("https://example.com", "example", none, none)).totalRequests = 10
    ∧ (Database.statsFor statsDemo 0
        ("https://example.com", "example", none, none)).successfulRequests = 7
    ∧ (Database.statsFor statsDemo 0
        ("https://example.com", "example", none, none)).successRate = 70
    ∧ (Database.statsFor statsDemo 0
        ("https://example.com", "example", none, none)).averageResponseTime = 55 := by
  have hkeys : ((statsDemo.rows.filter
        (fun row => decide ((0 : Int) ≤ row.timestamp))).map
          Database.statsKey).dedup
      = [("https://example.com", "example", (none : Option String),
          (none : Option String))] := by decide
  have hmem : Database.statsFor statsDemo 0
      ("https://example.com", "example", none, none)
      ∈ Database.getStats statsDemo 0 := by
    simp only [Database.getStats, hkeys, List.map_cons, List.map_nil]
    exact List.mem_singleton.mpr rfl
  have h := c4_stats_aggregation statsDemo 0 _ hmem
  have htot : (Database.statsFor statsDemo 0
      ("https://example.com", "example", none, none)).totalRequests = 10 :=
    h.1.trans (by decide)
  have hsucc : (Database.statsFor statsDemo 0
      ("https://example.com", "example", none, none)).successfulRequests = 7 :=
    h.2.1.trans (by decide)
  have hgrp : Database.statsGroup statsDemo 0
      (Database.statsFor statsDemo 0
        ("https://example.com", "example", none, none)) = statsDemo.rows := by
    decide
  refine ⟨hmem, htot, hsucc, ?_, ?_⟩
  · rw [h.2.2.2.2.1, htot, hsucc]
    norm_num
  · rw [h.2.2.2.2.2, htot, hgrp]
    simp only [statsDemo, sampleRow, Database.jsRound, List.map_cons,
      List.map_nil, List.sum_cons, List.sum_nil]
    norm_num

/-- A stored row with no group and no country. -/
def rowNoGroup : Database.DBRow :=
  { id := 1, url := "u", name := "n", countryCode := none, group_name := none,
    timestamp := 0, status := 200, responseTime := 1, success := true,
    error := none }

/-- C8 counterexample: on a table holding one row without a group, the
src/src/database.ts getGroupHierarchy returns the empty hierarchy (its
WHERE clause drops rows with NULL or empty group), so the stored row is
omitted rather than listed under the sentinel "Ungrouped", and the
claim fails for that variant. -/
theorem c8_counterexample :
    Database.getGroupHierarchy ⟨[rowNoGroup], 2⟩ = []
    ∧ (Database.DBState.mk [rowNoGroup] 2).rows ≠ [] := by
  decide

/-- C8 (amended): the part_004 getGroupHierarchy variant returns the
distinct (group, country) groupings with the sentinels "Ungrouped" and
"Unknown" substituted for absent values and omits no stored row, and
its (group, country) keys are pairwise distinct; the
src/src/database.ts variant instead omits every row whose group is NULL
or empty (each url it does list comes from a row with a real group),
and leaves an absent country absent instead of using "Unknown". -/
theorem c8_group_hierarchy (db : Database.DBState) :
    (∀ r ∈ db.rows, ∃ e ∈ Database.legacyGetGroupHierarchy db,
        e.group_name = r.group_name.getD "Ungrouped"
        ∧ e.countryCode = r.countryCode.getD "Unknown"
        ∧ (r.url, r.name) ∈ e.urls)
    ∧ ((Database.legacyGetGroupHierarchy db).map
        (fun e => (e.group_name, e.countryCode))).Nodup
    ∧ (∀ e ∈ Database.getGroupHierarchy db, ∀ p ∈ e.urls,
        ∃ r ∈ db.rows, r.url = p.1
          ∧ r.group_name ≠ none ∧ r.group_name ≠ some "") := by
  refine ⟨?_, ?_, ?_⟩
  · intro r hr
    have ht : (r.group_name.getD "Ungrouped", r.countryCode.getD "Unknown",
        r.name, r.url) ∈ Database.legacyTuples db :=
      List.mem_dedup.mpr (List.mem_map.mpr ⟨r, hr, rfl⟩)
    have hk : (r.group_name.getD "Ungrouped", r.countryCode.getD "Unknown")
        ∈ Database.legacyKeys db :=
      List.mem_dedup.mpr (List.mem_map.mpr
        ⟨(r.group_name.getD "Ungrouped", r.countryCode.getD "Unknown",
          r.name, r.url), ht, rfl⟩)
    refine ⟨_, List.mem_map.mpr
      ⟨(r.group_name.getD "Ungrouped", r.countryCode.getD "Unknown"),
        hk, rfl⟩, rfl, rfl, ?_⟩
    apply List.mem_map.mpr
    refine ⟨(r.group_name.getD "Ungrouped", r.countryCode.getD "Unknown",
      r.name, r.url), List.mem_filter.mpr ⟨ht, ?_⟩, rfl⟩
    simp
  · have hmap : ((Database.legacyGetGroupHierarchy db).map
        (fun e => (e.group_name, e.countryCode))) = Database.legacyKeys db := by
      simp only [Database.legacyGetGroupHierarchy, List.map_map]
      exact List.map_id _
    rw [hmap]
    exact List.nodup_dedup _
  · intro e he p hp
    by_cases hemp : (Database.hierTuples db).isEmpty = true
    · rw [Database.getGroupHierarchy, if_pos hemp] at he
      simp at he
    · rw [Database.getGroupHierarchy, if_neg hemp] at he
      rcases List.mem_map.mp he with ⟨k, _, hek⟩
      subst hek
      have hp2 := mem_dedupByUrl _ p hp
      rcases List.mem_map.mp hp2 with ⟨t, htf, hft⟩
      have ht : t ∈ Database.hierTuples db := (List.mem_filter.mp htf).1
      rcases List.mem_map.mp (List.mem_dedup.mp ht) with ⟨row, hrow, hrt⟩
      have hrow2 := List.mem_filter.mp hrow
      have h3 := hrow2.2
      simp only [Bool.and_eq_true, Bool.not_eq_true', beq_eq_false_iff_ne] at h3
      refine ⟨row, hrow2.1, ?_, h3.1, h3.2⟩
      subst hft
      rw [← hrt]

/-- Witness for C8: the groupless, countryless row appears in the
part_004 hierarchy under the sentinels "Ungrouped" and "Unknown". -/
theorem c8_group_hierarchy_witness :
    ∃ e ∈ Database.legacyGetGroupHierarchy ⟨[rowNoGroup], 2⟩,
      e.group_name = "Ungrouped" ∧ e.countryCode = "Unknown"
        ∧ ("u", "n") ∈ e.urls := by
  have h := (c8_group_hierarchy ⟨[rowNoGroup], 2⟩).1 rowNoGroup (by simp)
  simpa [rowNoGroup] using h
